import Mathlib

/-!
Shallow embedding of the glthread offload engine from
src/mesa/main/glthread.c: the batch ring, the producer-side flush/finish
protocol, the worker-side unmarshal callback, the CPU-pinning heuristic
and the statistics counters.

External collaborators (the util_queue job scheduler, the GL dispatch
tables, the CPU-topology queries) are modelled by their observable
effects on the engine state: a submission log, a fence bit per batch and
an environment record carrying the answers the platform would give.
-/

/-- One marshalled command record in a batch buffer: the header carries a
command id, and the per-command unmarshal function returns the number of
buffer words the record occupied (glthread.c lines 61-66). -/
structure MarshalCmd where
  cmd_id : Nat
  size : Nat
deriving DecidableEq

/-- A glthread batch (struct glthread_batch): the recorded command
stream, the published `used` word count, and its completion fence
(signalled = true). -/
structure GlthreadBatch where
  records : List MarshalCmd
  used : Nat
  fenceSignaled : Bool
deriving DecidableEq

/-- Statistics counters (glthread_state::stats). -/
structure GlthreadStats where
  num_batches : Nat
  num_offloaded_items : Nat
  num_direct_items : Nat
  num_syncs : Nat
deriving DecidableEq

/-- The engine state embedded in gl_context::GLThread, together with the
observable effects on its collaborators: `submittedJobs` logs the batch
indices handed to util_queue_add_job, `pinnedL3` logs the L3 domains the
worker thread was pinned to, and the three `*Alive` flags track the
resources acquired by init and released by destroy (the util_queue, the
VAO hash table, the marshal dispatch table). -/
structure GlthreadState where
  enabled : Bool
  batches : Nat → GlthreadBatch
  next : Nat
  last : Nat
  used : Nat
  pin_thread_counter : Nat
  stats : GlthreadStats
  LastCallList : Option Nat
  LastBindBuffer : Option Nat
  LastProgramChangeBatch : Int
  LastDListChangeBatchIndex : Int
  assertFailed : Bool
  submittedJobs : List Nat
  pinnedL3 : List Nat
  queueAlive : Bool
  vaoTableAlive : Bool
  marshalExecAlive : Bool

/-- Platform/context answers consumed by flush/finish: whether
CurrentServerDispatch equals ContextLost, whether the calling thread is
the queue's worker thread (u_thread_is_self), the CPU topology
(util_get_cpu_caps), and the current-CPU / CPU-to-L3 queries (none
models util_get_current_cpu < 0 resp. U_CPU_INVALID_L3). -/
structure GlthreadEnv where
  contextLost : Bool
  isWorkerThread : Bool
  num_L3_caches : Nat
  hasSetContextParam : Bool
  currentCpu : Option Nat
  cpuToL3 : Nat → Option Nat

/-- Success/failure answers consumed by _mesa_glthread_init: the two
pipe capabilities and the three allocations. -/
structure GlthreadInitEnv where
  cap_map_unsynchronized_thread_safe : Bool
  cap_allow_mapped_buffers : Bool
  queue_init_ok : Bool
  vao_table_ok : Bool
  dispatch_table_ok : Bool

/-- Pointwise update of the batch array at index i. -/
def setBatch (f : Nat → GlthreadBatch) (i : Nat) (b : GlthreadBatch) : Nat → GlthreadBatch :=
  fun j => if j = i then b else f j

/-- The record found at word offset pos of a buffer holding the given
record list back to back from offset 0 (the cmd header read at
&buffer[pos], glthread.c line 62-63). -/
def cmdAt : List MarshalCmd → Nat → Option MarshalCmd
  | [], _ => none
  | c :: rest, pos => if pos = 0 then some c else cmdAt rest (pos - c.size)

/-- Final cursor of the worker decode loop (glthread.c lines 61-66):
starting from pos, while pos < used, read the record at pos and advance
by the word count its unmarshal function returns. The fuel argument
makes the recursion structural; a record of size 0 (malformed stream)
stops the loop at the current cursor. -/
def unmarshalPos (records : List MarshalCmd) (used : Nat) : Nat → Nat → Nat
  | pos, 0 => pos
  | pos, fuel + 1 =>
    if pos < used then
      match cmdAt records pos with
      | some c => if c.size = 0 then pos else unmarshalPos records used (pos + c.size) fuel
      | none => pos
    else pos

/-- The sequence of records the decode loop dispatches, in the order it
dispatches them. -/
def unmarshalTrace (records : List MarshalCmd) (used : Nat) : Nat → Nat → List MarshalCmd
  | _, 0 => []
  | pos, fuel + 1 =>
    if pos < used then
      match cmdAt records pos with
      | some c => if c.size = 0 then [] else c :: unmarshalTrace records used (pos + c.size) fuel
      | none => []
    else []

/-- Total word count of a record list. -/
def sumSize : List MarshalCmd → Nat
  | [] => 0
  | c :: rest => c.size + sumSize rest

/-- glthread_unmarshal_batch (glthread.c lines 45-82) acting on the
batch at ring index i: run the decode loop over the batch's records
(its engine-visible outcome is whether the assert(pos == used) at line
73 holds), reset the batch's used count to 0, apply the two atomic
compare-exchange cache invalidations against the batch index, and
increment the batches-completed counter. -/
def glthread_unmarshal_batch (s : GlthreadState) (i : Nat) : GlthreadState :=
  let b := s.batches i
  let endPos := unmarshalPos b.records b.used 0 (b.used + 1)
  { s with
    batches := setBatch s.batches i { b with used := 0 },
    assertFailed := if endPos = b.used then s.assertFailed else true,
    LastProgramChangeBatch :=
      if s.LastProgramChangeBatch = (i : Int) then -1 else s.LastProgramChangeBatch,
    LastDListChangeBatchIndex :=
      if s.LastDListChangeBatchIndex = (i : Int) then -1 else s.LastDListChangeBatchIndex,
    stats := { s.stats with num_batches := s.stats.num_batches + 1 } }

/-- _mesa_glthread_finish (glthread.c lines 276-323): no-op when
disabled or when called from the worker thread; otherwise wait on the
last submitted batch's fence if it is not yet signalled, then, if the
current batch has pending words, publish them into batches[next] and
execute that batch directly on the calling thread (never submitting it
to the queue); finally bump num_syncs when either happened. -/
def _mesa_glthread_finish (env : GlthreadEnv) (s : GlthreadState) : GlthreadState :=
  if s.enabled then
    if env.isWorkerThread then s
    else
      let waited : Bool := !(s.batches s.last).fenceSignaled
      let s1 :=
        if (s.batches s.last).fenceSignaled then s
        else { s with batches :=
                 setBatch s.batches s.last { s.batches s.last with fenceSignaled := true } }
      if s1.used = 0 then
        if waited then
          { s1 with stats := { s1.stats with num_syncs := s1.stats.num_syncs + 1 } }
        else s1
      else
        let s2 := { s1 with
          stats := { s1.stats with
            num_direct_items := s1.stats.num_direct_items + s1.used },
          batches := setBatch s1.batches s1.next { s1.batches s1.next with used := s1.used },
          used := 0,
          LastCallList := none,
          LastBindBuffer := none }
        let s3 := glthread_unmarshal_batch s2 s2.next
        { s3 with stats := { s3.stats with num_syncs := s3.stats.num_syncs + 1 } }
  else s

/-- _mesa_glthread_destroy (glthread.c lines 173-201): no-op when
disabled; otherwise drain via finish, destroy the queue and the VAO
table, and flip enabled off (the marshal dispatch table is not freed
here). -/
def _mesa_glthread_destroy (env : GlthreadEnv) (s : GlthreadState) : GlthreadState :=
  if s.enabled then
    let s1 := _mesa_glthread_finish env s
    { s1 with queueAlive := false, vaoTableAlive := false, enabled := false }
  else s

/-- The L3-pinning heuristic inside _mesa_glthread_flush_batch
(glthread.c lines 218-238): only when the platform has more than one L3
cache and the driver exposes set_context_param, pre-increment
pin_thread_counter and, when the new value is a multiple of 128, query
the calling thread's CPU and its L3 domain; pin the worker thread (and
inform the driver) only when both queries succeed, silently doing
nothing otherwise. -/
def glthread_pin_heuristic (env : GlthreadEnv) (s : GlthreadState) : GlthreadState :=
  if 1 < env.num_L3_caches ∧ env.hasSetContextParam = true then
    if (s.pin_thread_counter + 1) % 128 = 0 then
      match env.currentCpu with
      | some cpu =>
        match env.cpuToL3 cpu with
        | some l3 => { s with pin_thread_counter := s.pin_thread_counter + 1,
                              pinnedL3 := s.pinnedL3 ++ [l3] }
        | none => { s with pin_thread_counter := s.pin_thread_counter + 1 }
      | none => { s with pin_thread_counter := s.pin_thread_counter + 1 }
    else { s with pin_thread_counter := s.pin_thread_counter + 1 }
  else s

/-- _mesa_glthread_flush_batch (glthread.c lines 203-268) with ring
size N (MARSHAL_MAX_BATCHES): no-op when disabled; destroy when the
context is lost; no-op when the current batch is empty; otherwise apply
the pin heuristic, add used to the offloaded-items counter, publish
used into batches[next], submit that batch to the queue (resetting its
fence), advance last/next around the ring, zero the producer cursor and
clear the two fast-path caches. -/
def _mesa_glthread_flush_batch (N : Nat) (env : GlthreadEnv) (s : GlthreadState) :
    GlthreadState :=
  if s.enabled then
    if env.contextLost then _mesa_glthread_destroy env s
    else if s.used = 0 then s
    else
      let s1 := glthread_pin_heuristic env s
      { s1 with
        stats := { s1.stats with
          num_offloaded_items := s1.stats.num_offloaded_items + s1.used },
        batches := setBatch s1.batches s1.next
          { s1.batches s1.next with used := s1.used, fenceSignaled := false },
        submittedJobs := s1.submittedJobs ++ [s1.next],
        last := s1.next,
        next := (s1.next + 1) % N,
        used := 0,
        LastCallList := none,
        LastBindBuffer := none }
  else s

/-- _mesa_glthread_init (glthread.c lines 107-165): return unchanged
when either pipe capability is missing or util_queue_init fails; on a
later allocation failure release what was already acquired; on success
initialise every batch's fence as signalled, zero the producer cursor
and enable the engine. -/
def _mesa_glthread_init (env : GlthreadInitEnv) (s : GlthreadState) : GlthreadState :=
  if env.cap_map_unsynchronized_thread_safe && env.cap_allow_mapped_buffers then
    if env.queue_init_ok then
      let s1 := { s with queueAlive := true }
      if env.vao_table_ok then
        let s2 := { s1 with vaoTableAlive := true }
        if env.dispatch_table_ok then
          { s2 with
            marshalExecAlive := true,
            batches := fun i => { s2.batches i with fenceSignaled := true },
            used := 0,
            enabled := true,
            LastDListChangeBatchIndex := -1 }
        else { s2 with vaoTableAlive := false, queueAlive := false }
      else { s1 with queueAlive := false }
    else s
  else s

/-- A quiescent enabled engine used to instantiate the theorems. -/
def stBase : GlthreadState where
  enabled := true
  batches := fun _ => { records := [], used := 0, fenceSignaled := true }
  next := 0
  last := 0
  used := 0
  pin_thread_counter := 0
  stats := { num_batches := 0, num_offloaded_items := 0, num_direct_items := 0, num_syncs := 0 }
  LastCallList := none
  LastBindBuffer := none
  LastProgramChangeBatch := -1
  LastDListChangeBatchIndex := -1
  assertFailed := false
  submittedJobs := []
  pinnedL3 := []
  queueAlive := true
  vaoTableAlive := true
  marshalExecAlive := true

/-- A never-enabled engine with no resources, as found before init. -/
def stFresh : GlthreadState :=
  { stBase with enabled := false, queueAlive := false, vaoTableAlive := false,
                marshalExecAlive := false }

/-- Benign environment: producer thread, live context, single L3. -/
def envMain : GlthreadEnv where
  contextLost := false
  isWorkerThread := false
  num_L3_caches := 1
  hasSetContextParam := false
  currentCpu := none
  cpuToL3 := fun _ => none

/-- Environment as seen from the worker thread itself. -/
def envWorker : GlthreadEnv := { envMain with isWorkerThread := true }

/-- Environment of a lost context. -/
def envLost : GlthreadEnv := { envMain with contextLost := true }

/-- Enabled engine whose current batch holds 4 pending words. -/
def stPending : GlthreadState := { stBase with used := 4 }

/-- Enabled engine whose last submitted batch is still in flight
(fence unsignalled) and whose current batch is empty. -/
def stWait : GlthreadState :=
  { stBase with batches := fun _ => { records := [], used := 0, fenceSignaled := false } }

/-- Engine whose batch 0 carries a concrete two-record stream:
a 2-word record with command id 7 followed by a 1-word record with
command id 3, published used count 3. -/
def stDecode : GlthreadState :=
  { stBase with batches := fun _ =>
      { records := [{ cmd_id := 7, size := 2 }, { cmd_id := 3, size := 1 }],
        used := 3, fenceSignaled := true } }

/-- Init environment where both capabilities hold and every allocation
succeeds. -/
def initEnvOk : GlthreadInitEnv where
  cap_map_unsynchronized_thread_safe := true
  cap_allow_mapped_buffers := true
  queue_init_ok := true
  vao_table_ok := true
  dispatch_table_ok := true

/-! ## Helper lemmas -/

@[simp] theorem setBatch_same (f : Nat → GlthreadBatch) (i : Nat) (b : GlthreadBatch) :
    setBatch f i b i = b := by
  simp [setBatch]

theorem setBatch_other (f : Nat → GlthreadBatch) (i j : Nat) (b : GlthreadBatch)
    (h : j ≠ i) : setBatch f i b j = f j := by
  simp [setBatch, h]

/-- The pin heuristic touches only pin_thread_counter and pinnedL3. -/
theorem glthread_pin_heuristic_shape (env : GlthreadEnv) (s : GlthreadState) :
    ∃ pc pl, glthread_pin_heuristic env s =
      { s with pin_thread_counter := pc, pinnedL3 := pl } := by
  unfold glthread_pin_heuristic
  repeat' split
  all_goals exact ⟨_, _, rfl⟩

theorem cmdAt_cons_zero (c : MarshalCmd) (rest : List MarshalCmd) :
    cmdAt (c :: rest) 0 = some c := by
  simp [cmdAt]

theorem cmdAt_cons_shift (c : MarshalCmd) (rest : List MarshalCmd) (p : Nat)
    (hc : 0 < c.size) : cmdAt (c :: rest) (c.size + p) = cmdAt rest p := by
  have hne : c.size + p ≠ 0 := by omega
  simp [cmdAt, hne]

theorem unmarshalPos_shift (c : MarshalCmd) (rest : List MarshalCmd) (u : Nat)
    (hc : 0 < c.size) :
    ∀ fuel p, unmarshalPos (c :: rest) (c.size + u) (c.size + p) fuel =
      c.size + unmarshalPos rest u p fuel := by
  intro fuel
  induction fuel with
  | zero => intro p; rfl
  | succ n ih =>
    intro p
    by_cases hp : p < u
    · have hp' : c.size + p < c.size + u := by omega
      rw [unmarshalPos, unmarshalPos, if_pos hp', if_pos hp, cmdAt_cons_shift c rest p hc]
      cases h : cmdAt rest p with
      | none => rfl
      | some d =>
        by_cases hd : d.size = 0
        · simp [hd]
        · simp only [hd, if_neg hd]
          rw [Nat.add_assoc]
          exact ih (p + d.size)
    · have hp' : ¬ c.size + p < c.size + u := by omega
      rw [unmarshalPos, unmarshalPos, if_neg hp', if_neg hp]

theorem unmarshalTrace_shift (c : MarshalCmd) (rest : List MarshalCmd) (u : Nat)
    (hc : 0 < c.size) :
    ∀ fuel p, unmarshalTrace (c :: rest) (c.size + u) (c.size + p) fuel =
      unmarshalTrace rest u p fuel := by
  intro fuel
  induction fuel with
  | zero => intro p; rfl
  | succ n ih =>
    intro p
    by_cases hp : p < u
    · have hp' : c.size + p < c.size + u := by omega
      rw [unmarshalTrace, unmarshalTrace, if_pos hp', if_pos hp, cmdAt_cons_shift c rest p hc]
      cases h : cmdAt rest p with
      | none => rfl
      | some d =>
        by_cases hd : d.size = 0
        · simp [hd]
        · simp only [hd, if_neg hd]
          rw [Nat.add_assoc]
          rw [ih (p + d.size)]
    · have hp' : ¬ c.size + p < c.size + u := by omega
      rw [unmarshalTrace, unmarshalTrace, if_neg hp', if_neg hp]

/-- On a well-formed record stream the decode loop's cursor lands exactly
on the total size. -/
theorem unmarshalPos_complete :
    ∀ (rs : List MarshalCmd) (fuel : Nat), (∀ c ∈ rs, 0 < c.size) →
      rs.length ≤ fuel → unmarshalPos rs (sumSize rs) 0 fuel = sumSize rs := by
  intro rs
  induction rs with
  | nil =>
    intro fuel _ _
    cases fuel with
    | zero => rfl
    | succ n => simp [unmarshalPos, sumSize]
  | cons c rest ih =>
    intro fuel hwf hfuel
    cases fuel with
    | zero => simp at hfuel
    | succ n =>
      have hc : 0 < c.size := hwf c (List.mem_cons_self c rest)
      have hpos : 0 < sumSize (c :: rest) := by
        simp only [sumSize]; omega
      rw [unmarshalPos, if_pos hpos, cmdAt_cons_zero]
      simp only [Nat.pos_iff_ne_zero.mp hc, if_neg (Nat.pos_iff_ne_zero.mp hc)]
      have h0 : 0 + c.size = c.size + 0 := by omega
      rw [h0]
      show unmarshalPos (c :: rest) (sumSize (c :: rest)) (c.size + 0) n = sumSize (c :: rest)
      have hsum : sumSize (c :: rest) = c.size + sumSize rest := rfl
      rw [hsum, unmarshalPos_shift c rest (sumSize rest) hc n 0]
      have : unmarshalPos rest (sumSize rest) 0 n = sumSize rest := by
        apply ih n (fun d hd => hwf d (List.mem_cons_of_mem c hd))
        simp only [List.length_cons] at hfuel
        omega
      omega

/-- On a well-formed record stream the decode loop dispatches exactly
the recorded records, in recording (FIFO) order. -/
theorem unmarshalTrace_complete :
    ∀ (rs : List MarshalCmd) (fuel : Nat), (∀ c ∈ rs, 0 < c.size) →
      rs.length ≤ fuel → unmarshalTrace rs (sumSize rs) 0 fuel = rs := by
  intro rs
  induction rs with
  | nil =>
    intro fuel _ _
    cases fuel with
    | zero => rfl
    | succ n => simp [unmarshalTrace, sumSize]
  | cons c rest ih =>
    intro fuel hwf hfuel
    cases fuel with
    | zero => simp at hfuel
    | succ n =>
      have hc : 0 < c.size := hwf c (List.mem_cons_self c rest)
      have hpos : 0 < sumSize (c :: rest) := by
        simp only [sumSize]; omega
      rw [unmarshalTrace, if_pos hpos, cmdAt_cons_zero]
      simp only [if_neg (Nat.pos_iff_ne_zero.mp hc)]
      have h0 : 0 + c.size = c.size + 0 := by omega
      rw [h0]
      have hsum : sumSize (c :: rest) = c.size + sumSize rest := rfl
      rw [hsum, unmarshalTrace_shift c rest (sumSize rest) hc n 0]
      have : unmarshalTrace rest (sumSize rest) 0 n = rest := by
        apply ih n (fun d hd => hwf d (List.mem_cons_of_mem c hd))
        simp only [List.length_cons] at hfuel
        omega
      rw [this]

/-- Each record contributing at least one word, the record count is at
most the total size. -/
theorem length_le_sumSize :
    ∀ rs : List MarshalCmd, (∀ c ∈ rs, 0 < c.size) → rs.length ≤ sumSize rs := by
  intro rs
  induction rs with
  | nil => intro _; simp [sumSize]
  | cons c rest ih =>
    intro hwf
    have hc : 0 < c.size := hwf c (List.mem_cons_self c rest)
    have := ih (fun d hd => hwf d (List.mem_cons_of_mem c hd))
    simp only [List.length_cons, sumSize]
    omega

/-- The pin log grows only when the platform has several L3 caches, the
driver exposes set_context_param, and the pre-incremented counter is a
multiple of 128. -/
theorem glthread_pin_heuristic_pin_conds (env : GlthreadEnv) (s : GlthreadState)
    (h : (glthread_pin_heuristic env s).pinnedL3 ≠ s.pinnedL3) :
    1 < env.num_L3_caches ∧ env.hasSetContextParam = true ∧
      (s.pin_thread_counter + 1) % 128 = 0 := by
  unfold glthread_pin_heuristic at h
  repeat' split at h
  all_goals simp_all

/-- No pin happens when the current CPU cannot be determined. -/
theorem glthread_pin_heuristic_cpu_none (env : GlthreadEnv) (s : GlthreadState)
    (h : env.currentCpu = none) :
    (glthread_pin_heuristic env s).pinnedL3 = s.pinnedL3 := by
  unfold glthread_pin_heuristic
  repeat' split
  all_goals simp_all

/-- No pin happens when the current CPU's L3 domain is invalid. -/
theorem glthread_pin_heuristic_l3_none (env : GlthreadEnv) (s : GlthreadState)
    (cpu : Nat) (h : env.currentCpu = some cpu) (h2 : env.cpuToL3 cpu = none) :
    (glthread_pin_heuristic env s).pinnedL3 = s.pinnedL3 := by
  unfold glthread_pin_heuristic
  repeat' split
  all_goals simp_all

/-- The non-empty, live-context flush path written out: the pin
heuristic step followed by the stats update, the batch publication, the
submission and the ring advance. -/
theorem flush_nonempty_eq (N : Nat) (env : GlthreadEnv) (s : GlthreadState)
    (h1 : s.enabled = true) (h2 : env.contextLost = false) (h3 : s.used ≠ 0) :
    _mesa_glthread_flush_batch N env s =
      { glthread_pin_heuristic env s with
        stats := { s.stats with
          num_offloaded_items := s.stats.num_offloaded_items + s.used },
        batches := setBatch s.batches s.next
          { s.batches s.next with used := s.used, fenceSignaled := false },
        submittedJobs := s.submittedJobs ++ [s.next],
        last := s.next,
        next := (s.next + 1) % N,
        used := 0,
        LastCallList := none,
        LastBindBuffer := none } := by
  obtain ⟨pc, pl, hpin⟩ := glthread_pin_heuristic_shape env s
  unfold _mesa_glthread_flush_batch
  rw [hpin]
  simp [h1, h2, h3]

/-! ## Claim theorems -/

/-- C7: if finish is invoked from the worker thread itself, it returns
immediately with all engine state unchanged: no fence wait, no direct
execution, and no statistics counter change. -/
theorem glthread_finish_worker_noop (env : GlthreadEnv) (s : GlthreadState)
    (h : env.isWorkerThread = true) : _mesa_glthread_finish env s = s := by
  simp [_mesa_glthread_finish, h]

/-- C7 witness at a concrete worker-thread call. -/
theorem glthread_finish_worker_noop_witness :
    envWorker.isWorkerThread = true ∧ _mesa_glthread_finish envWorker stBase = stBase :=
  ⟨rfl, glthread_finish_worker_noop envWorker stBase rfl⟩

/-- C4 (amended): a flush on an empty current batch is a complete no-op
provided the engine is disabled or the context is not lost. -/
theorem glthread_flush_empty_noop (N : Nat) (env : GlthreadEnv) (s : GlthreadState)
    (h1 : s.used = 0) (h2 : s.enabled = false ∨ env.contextLost = false) :
    _mesa_glthread_flush_batch N env s = s := by
  unfold _mesa_glthread_flush_batch
  rcases h2 with h2 | h2
  · simp [h2]
  · simp [h2, h1]

/-- C4 witness: empty flush on a live enabled engine changes nothing. -/
theorem glthread_flush_empty_noop_witness :
    stBase.used = 0 ∧ _mesa_glthread_flush_batch 8 envMain stBase = stBase :=
  ⟨rfl, glthread_flush_empty_noop 8 envMain stBase rfl (Or.inr rfl)⟩

/-- C4 counterexample: a flush with used = 0 on an enabled engine whose
context is lost is not a no-op: the sync counter changes (the destroy
path waits on the in-flight last batch). -/
theorem glthread_flush_empty_not_always_noop :
    stWait.used = 0 ∧
    (_mesa_glthread_flush_batch 8 envLost stWait).stats.num_syncs ≠
      stWait.stats.num_syncs := by
  refine ⟨rfl, ?_⟩
  decide

/-- C9: a flush on an enabled engine with a lost context tears the
engine down even when the current batch is empty: the lost-context
check precedes the empty-batch check, so the result is the destroyed
state, not the unchanged one. -/
theorem glthread_flush_lost_destroys (N : Nat) (env : GlthreadEnv) (s : GlthreadState)
    (h1 : s.enabled = true) (h2 : env.contextLost = true) (_h3 : s.used = 0) :
    _mesa_glthread_flush_batch N env s = _mesa_glthread_destroy env s ∧
    (_mesa_glthread_flush_batch N env s).enabled = false ∧
    (_mesa_glthread_flush_batch N env s).queueAlive = false ∧
    (_mesa_glthread_flush_batch N env s).vaoTableAlive = false ∧
    _mesa_glthread_flush_batch N env s ≠ s := by
  have hflush : _mesa_glthread_flush_batch N env s = _mesa_glthread_destroy env s := by
    unfold _mesa_glthread_flush_batch
    simp [h1, h2]
  have hdes : (_mesa_glthread_destroy env s).enabled = false := by
    unfold _mesa_glthread_destroy
    simp [h1]
  refine ⟨hflush, ?_, ?_, ?_, ?_⟩
  · rw [hflush]; exact hdes
  · rw [hflush]; unfold _mesa_glthread_destroy; simp [h1]
  · rw [hflush]; unfold _mesa_glthread_destroy; simp [h1]
  · intro heq
    rw [heq] at hflush
    rw [← hflush] at hdes
    rw [h1] at hdes
    exact Bool.noConfusion hdes

/-- C9 witness: lost context, empty batch, enabled engine. -/
theorem glthread_flush_lost_destroys_witness :
    stBase.enabled = true ∧ envLost.contextLost = true ∧ stBase.used = 0 ∧
    (_mesa_glthread_flush_batch 8 envLost stBase =
       _mesa_glthread_destroy envLost stBase ∧
     (_mesa_glthread_flush_batch 8 envLost stBase).enabled = false ∧
     (_mesa_glthread_flush_batch 8 envLost stBase).queueAlive = false ∧
     (_mesa_glthread_flush_batch 8 envLost stBase).vaoTableAlive = false ∧
     _mesa_glthread_flush_batch 8 envLost stBase ≠ stBase) :=
  ⟨rfl, rfl, rfl, glthread_flush_lost_destroys 8 envLost stBase rfl rfl rfl⟩

/-- C10: finish never advances the batch ring: the next and last ring
indices are unchanged, and every ring slot other than the current and
last ones is untouched (a pending current batch is executed in place in
slot next). -/
theorem glthread_finish_ring_stable (env : GlthreadEnv) (s : GlthreadState) (i : Nat)
    (h1 : i ≠ s.next) (h2 : i ≠ s.last) :
    (_mesa_glthread_finish env s).next = s.next ∧
    (_mesa_glthread_finish env s).last = s.last ∧
    (_mesa_glthread_finish env s).batches i = s.batches i := by
  simp only [_mesa_glthread_finish, glthread_unmarshal_batch]
  repeat' split
  all_goals simp_all [setBatch, h1, h2]

/-- C10 witness at a concrete slot away from next and last. -/
theorem glthread_finish_ring_stable_witness :
    2 ≠ stBase.next ∧ 2 ≠ stBase.last ∧
    ((_mesa_glthread_finish envMain stBase).next = stBase.next ∧
     (_mesa_glthread_finish envMain stBase).last = stBase.last ∧
     (_mesa_glthread_finish envMain stBase).batches 2 = stBase.batches 2) :=
  ⟨by decide, by decide,
   glthread_finish_ring_stable envMain stBase 2 (by decide) (by decide)⟩

/-- C1: after a producer-thread finish on an enabled engine, no command
recorded before the call remains unexecuted: the most recently submitted
batch's fence is signalled and the current batch's pending count is 0. -/
theorem glthread_finish_drains (env : GlthreadEnv) (s : GlthreadState)
    (h1 : s.enabled = true) (h2 : env.isWorkerThread = false) :
    ((_mesa_glthread_finish env s).batches (_mesa_glthread_finish env s).last).fenceSignaled
      = true ∧
    (_mesa_glthread_finish env s).used = 0 := by
  simp only [_mesa_glthread_finish, glthread_unmarshal_batch]
  repeat' split
  all_goals by_cases hnl : s.last = s.next
  all_goals
    have hswap : (s.next = s.last) ↔ (s.last = s.next) := ⟨fun h => h.symm, fun h => h.symm⟩
  all_goals simp_all [setBatch, hswap]

/-- C1 witness: producer finish on a quiescent enabled engine. -/
theorem glthread_finish_drains_witness :
    stBase.enabled = true ∧ envMain.isWorkerThread = false ∧
    (((_mesa_glthread_finish envMain stBase).batches
        (_mesa_glthread_finish envMain stBase).last).fenceSignaled = true ∧
     (_mesa_glthread_finish envMain stBase).used = 0) :=
  ⟨rfl, rfl, glthread_finish_drains envMain stBase rfl rfl⟩

/-- C3: a flush on an enabled engine with a live context and a
non-empty current batch adds used to the offloaded-items counter,
submits the current batch (with its used count and a reset fence) to
the queue, and advances the ring: last becomes next, next becomes
(next + 1) mod N, and the pending count drops to 0. -/
theorem glthread_flush_submits (N : Nat) (env : GlthreadEnv) (s : GlthreadState)
    (h1 : s.enabled = true) (h2 : env.contextLost = false) (h3 : s.used ≠ 0) :
    (_mesa_glthread_flush_batch N env s).stats.num_offloaded_items =
      s.stats.num_offloaded_items + s.used ∧
    (_mesa_glthread_flush_batch N env s).submittedJobs = s.submittedJobs ++ [s.next] ∧
    ((_mesa_glthread_flush_batch N env s).batches s.next).used = s.used ∧
    ((_mesa_glthread_flush_batch N env s).batches s.next).fenceSignaled = false ∧
    (_mesa_glthread_flush_batch N env s).last = s.next ∧
    (_mesa_glthread_flush_batch N env s).next = (s.next + 1) % N ∧
    (_mesa_glthread_flush_batch N env s).used = 0 := by
  rw [flush_nonempty_eq N env s h1 h2 h3]
  simp [setBatch]

/-- C3 witness: flush of a 4-word batch on a ring of size 8. -/
theorem glthread_flush_submits_witness :
    stPending.used ≠ 0 ∧
    ((_mesa_glthread_flush_batch 8 envMain stPending).stats.num_offloaded_items =
       stPending.stats.num_offloaded_items + stPending.used ∧
     (_mesa_glthread_flush_batch 8 envMain stPending).submittedJobs =
       stPending.submittedJobs ++ [stPending.next] ∧
     ((_mesa_glthread_flush_batch 8 envMain stPending).batches stPending.next).used =
       stPending.used ∧
     ((_mesa_glthread_flush_batch 8 envMain stPending).batches
        stPending.next).fenceSignaled = false ∧
     (_mesa_glthread_flush_batch 8 envMain stPending).last = stPending.next ∧
     (_mesa_glthread_flush_batch 8 envMain stPending).next = (stPending.next + 1) % 8 ∧
     (_mesa_glthread_flush_batch 8 envMain stPending).used = 0) :=
  ⟨by decide, glthread_flush_submits 8 envMain stPending rfl rfl (by decide)⟩

/-- C8: on a non-empty live flush the pin log can only grow when the
platform reports more than one L3 cache domain, the driver exposes
set_context_param and the pre-incremented pin counter is a multiple of
128; and when the calling thread's CPU or its L3 domain cannot be
determined, no pin happens while the flush still submits, advances the
ring and clears the pending count as usual. -/
theorem glthread_flush_pin_spec (N : Nat) (env : GlthreadEnv) (s : GlthreadState)
    (h1 : s.enabled = true) (h2 : env.contextLost = false) (h3 : s.used ≠ 0) :
    ((_mesa_glthread_flush_batch N env s).pinnedL3 ≠ s.pinnedL3 →
       1 < env.num_L3_caches ∧ env.hasSetContextParam = true ∧
       (s.pin_thread_counter + 1) % 128 = 0) ∧
    (env.currentCpu = none →
       (_mesa_glthread_flush_batch N env s).pinnedL3 = s.pinnedL3 ∧
       (_mesa_glthread_flush_batch N env s).submittedJobs = s.submittedJobs ++ [s.next] ∧
       (_mesa_glthread_flush_batch N env s).next = (s.next + 1) % N ∧
       (_mesa_glthread_flush_batch N env s).used = 0) ∧
    (∀ cpu, env.currentCpu = some cpu → env.cpuToL3 cpu = none →
       (_mesa_glthread_flush_batch N env s).pinnedL3 = s.pinnedL3 ∧
       (_mesa_glthread_flush_batch N env s).submittedJobs = s.submittedJobs ++ [s.next] ∧
       (_mesa_glthread_flush_batch N env s).next = (s.next + 1) % N ∧
       (_mesa_glthread_flush_batch N env s).used = 0) := by
  rw [flush_nonempty_eq N env s h1 h2 h3]
  refine ⟨?_, ?_, ?_⟩
  · intro hch
    exact glthread_pin_heuristic_pin_conds env s hch
  · intro hcpu
    exact ⟨glthread_pin_heuristic_cpu_none env s hcpu, rfl, rfl, rfl⟩
  · intro cpu hcpu hl3
    exact ⟨glthread_pin_heuristic_l3_none env s cpu hcpu hl3, rfl, rfl, rfl⟩

/-- C8 witness: the CPU query fails (no current CPU), the flush still
submits and advances, and no pin is recorded. -/
theorem glthread_flush_pin_spec_witness :
    envMain.currentCpu = none ∧
    ((_mesa_glthread_flush_batch 8 envMain stPending).pinnedL3 = stPending.pinnedL3 ∧
     (_mesa_glthread_flush_batch 8 envMain stPending).submittedJobs =
       stPending.submittedJobs ++ [stPending.next] ∧
     (_mesa_glthread_flush_batch 8 envMain stPending).next = (stPending.next + 1) % 8 ∧
     (_mesa_glthread_flush_batch 8 envMain stPending).used = 0) :=
  ⟨rfl, (glthread_flush_pin_spec 8 envMain stPending rfl rfl (by decide)).2.1 rfl⟩

/-- C2: on a well-formed record stream (every record non-empty, the
published used count exactly the total record size) the worker callback
decodes the records from offset 0 in FIFO order, advancing by each
record's size until the cursor equals used exactly (the line-73
assertion holds), then resets the batch's used count to 0 and
increments the batches-completed counter. -/
theorem glthread_unmarshal_batch_spec (s : GlthreadState) (i : Nat)
    (hwf : ∀ c ∈ (s.batches i).records, 0 < c.size)
    (hused : (s.batches i).used = sumSize (s.batches i).records) :
    unmarshalTrace (s.batches i).records (s.batches i).used 0 ((s.batches i).used + 1) =
      (s.batches i).records ∧
    unmarshalPos (s.batches i).records (s.batches i).used 0 ((s.batches i).used + 1) =
      (s.batches i).used ∧
    (glthread_unmarshal_batch s i).assertFailed = s.assertFailed ∧
    ((glthread_unmarshal_batch s i).batches i).used = 0 ∧
    (glthread_unmarshal_batch s i).stats.num_batches = s.stats.num_batches + 1 := by
  have hlen := length_le_sumSize (s.batches i).records hwf
  have hpos : unmarshalPos (s.batches i).records (s.batches i).used 0
      ((s.batches i).used + 1) = (s.batches i).used := by
    rw [hused]
    exact unmarshalPos_complete _ _ hwf (by omega)
  have htr : unmarshalTrace (s.batches i).records (s.batches i).used 0
      ((s.batches i).used + 1) = (s.batches i).records := by
    rw [hused]
    exact unmarshalTrace_complete _ _ hwf (by omega)
  refine ⟨htr, hpos, ?_, ?_, ?_⟩
  · simp [glthread_unmarshal_batch, hpos]
  · simp [glthread_unmarshal_batch, setBatch]
  · simp [glthread_unmarshal_batch]

/-- C2 witness: a concrete two-record stream of sizes 2 and 1 with
used = 3, decoded by the callback on batch 0. -/
theorem glthread_unmarshal_batch_spec_witness :
    unmarshalTrace (stDecode.batches 0).records (stDecode.batches 0).used 0
        ((stDecode.batches 0).used + 1) = (stDecode.batches 0).records ∧
    unmarshalPos (stDecode.batches 0).records (stDecode.batches 0).used 0
        ((stDecode.batches 0).used + 1) = (stDecode.batches 0).used ∧
    (glthread_unmarshal_batch stDecode 0).assertFailed = stDecode.assertFailed ∧
    ((glthread_unmarshal_batch stDecode 0).batches 0).used = 0 ∧
    (glthread_unmarshal_batch stDecode 0).stats.num_batches =
      stDecode.stats.num_batches + 1 :=
  glthread_unmarshal_batch_spec stDecode 0 (by decide) (by decide)

/-- C6: a producer-thread finish on an enabled engine with a non-empty
current batch executes it directly on the calling thread: nothing is
submitted to the queue, used is added to the executed-directly counter
(the offloaded counter is untouched), the batch completes (used resets
to 0, batches-completed increments); and the sync counter increments by
exactly one iff a fence wait occurred or direct execution happened. -/
theorem glthread_finish_direct_exec (env : GlthreadEnv) (s : GlthreadState)
    (h1 : s.enabled = true) (h2 : env.isWorkerThread = false) :
    (s.used ≠ 0 →
       (_mesa_glthread_finish env s).submittedJobs = s.submittedJobs ∧
       (_mesa_glthread_finish env s).stats.num_direct_items =
         s.stats.num_direct_items + s.used ∧
       (_mesa_glthread_finish env s).stats.num_offloaded_items =
         s.stats.num_offloaded_items ∧
       (_mesa_glthread_finish env s).stats.num_batches = s.stats.num_batches + 1 ∧
       ((_mesa_glthread_finish env s).batches s.next).used = 0 ∧
       (_mesa_glthread_finish env s).used = 0) ∧
    (_mesa_glthread_finish env s).stats.num_syncs =
      (if (s.batches s.last).fenceSignaled = false ∨ s.used ≠ 0 then
         s.stats.num_syncs + 1
       else s.stats.num_syncs) := by
  simp only [_mesa_glthread_finish, glthread_unmarshal_batch]
  repeat' split
  all_goals simp_all [setBatch]

/-- C6 witness: finish with 4 pending words and the last fence already
signalled: direct execution, no submission, one sync counted. -/
theorem glthread_finish_direct_exec_witness :
    stPending.used ≠ 0 ∧
    (stPending.used ≠ 0 →
       (_mesa_glthread_finish envMain stPending).submittedJobs =
         stPending.submittedJobs ∧
       (_mesa_glthread_finish envMain stPending).stats.num_direct_items =
         stPending.stats.num_direct_items + stPending.used ∧
       (_mesa_glthread_finish envMain stPending).stats.num_offloaded_items =
         stPending.stats.num_offloaded_items ∧
       (_mesa_glthread_finish envMain stPending).stats.num_batches =
         stPending.stats.num_batches + 1 ∧
       ((_mesa_glthread_finish envMain stPending).batches stPending.next).used = 0 ∧
       (_mesa_glthread_finish envMain stPending).used = 0) ∧
    (_mesa_glthread_finish envMain stPending).stats.num_syncs =
      (if (stPending.batches stPending.last).fenceSignaled = false ∨ stPending.used ≠ 0
       then stPending.stats.num_syncs + 1
       else stPending.stats.num_syncs) :=
  ⟨by decide, glthread_finish_direct_exec envMain stPending rfl rfl⟩

/-- C5: init leaves the engine disabled (its boolean outcome false)
when either required capability is missing, unwinds every acquired
resource on any allocation failure, and enables the engine exactly when
the capabilities hold and all three allocations succeed. -/
theorem glthread_init_spec (env : GlthreadInitEnv) (s : GlthreadState)
    (h1 : s.enabled = false) (h2 : s.queueAlive = false)
    (h3 : s.vaoTableAlive = false) (h4 : s.marshalExecAlive = false) :
    ((env.cap_map_unsynchronized_thread_safe = false ∨
        env.cap_allow_mapped_buffers = false) →
       _mesa_glthread_init env s = s) ∧
    ((_mesa_glthread_init env s).enabled = true ↔
       (env.cap_map_unsynchronized_thread_safe = true ∧
        env.cap_allow_mapped_buffers = true ∧ env.queue_init_ok = true ∧
        env.vao_table_ok = true ∧ env.dispatch_table_ok = true)) ∧
    ((_mesa_glthread_init env s).enabled = false →
       (_mesa_glthread_init env s).queueAlive = false ∧
       (_mesa_glthread_init env s).vaoTableAlive = false ∧
       (_mesa_glthread_init env s).marshalExecAlive = false) := by
  obtain ⟨en, bat, nx, la, us, pc, st, lcl, lbb, lpb, ldl, af, sj, pl, qa, va, ma⟩ := s
  obtain ⟨c1, c2, q, v, d⟩ := env
  dsimp only at h1 h2 h3 h4
  subst h1; subst h2; subst h3; subst h4
  cases c1 <;> cases c2 <;> cases q <;> cases v <;> cases d <;>
    simp [_mesa_glthread_init, GlthreadState.mk.injEq]

/-- C5 witness: all capabilities and allocations succeed on a fresh
disabled state, so the engine comes up enabled. -/
theorem glthread_init_spec_witness :
    ((initEnvOk.cap_map_unsynchronized_thread_safe = false ∨
        initEnvOk.cap_allow_mapped_buffers = false) →
       _mesa_glthread_init initEnvOk stFresh = stFresh) ∧
    ((_mesa_glthread_init initEnvOk stFresh).enabled = true ↔
       (initEnvOk.cap_map_unsynchronized_thread_safe = true ∧
        initEnvOk.cap_allow_mapped_buffers = true ∧ initEnvOk.queue_init_ok = true ∧
        initEnvOk.vao_table_ok = true ∧ initEnvOk.dispatch_table_ok = true)) ∧
    ((_mesa_glthread_init initEnvOk stFresh).enabled = false →
       (_mesa_glthread_init initEnvOk stFresh).queueAlive = false ∧
       (_mesa_glthread_init initEnvOk stFresh).vaoTableAlive = false ∧
       (_mesa_glthread_init initEnvOk stFresh).marshalExecAlive = false) :=
  glthread_init_spec initEnvOk stFresh rfl rfl rfl rfl
